import Mathlib

/-!
Verification development for the dioxus desktop bridge
(packages/desktop/src/{controller.rs, context.rs, lib.rs}).

The embedding models:
  * the mutation queue `pending_edits : Arc<Mutex<Vec<String>>>` as a
    `List String` whose `push` appends at the end and whose `pop` removes
    the last element (Rust `Vec` semantics);
  * the readiness gate `is_ready : Arc<AtomicBool>` as a `Bool` field;
  * the webview registry `webviews : HashMap<WindowId, WebView>` as a
    `List Nat` of live window ids (values are opaque host handles; the
    drain loop only takes the first entry of the iterator);
  * panics (`unwrap` / `expect`) as `none` results of `Option`-valued
    functions;
  * side effects (scheduler sends, proxy wake signals, browser opens,
    log warnings) as an explicit effect log returned by each operation.
-/

namespace DioxusDesktop

/-- Structured IPC parameter values (`serde_json::Value`). -/
inductive Json where
  | null
  | bool (b : Bool)
  | num (n : Int)
  | str (s : String)
  | arr (elems : List Json)
  | obj (fields : List (String × Json))

/-- `Value::as_object` — some iff the value is an object. -/
def Json.as_object : Json → Option (List (String × Json))
  | .obj fields => some fields
  | _ => none

/-- `Value::as_str` — some iff the value is a string. -/
def Json.as_str : Json → Option String
  | .str s => some s
  | _ => none

/-- `Map::contains_key` on an object's field list. -/
def objContainsKey (fields : List (String × Json)) (key : String) : Bool :=
  fields.any (fun p => p.1 == key)

/-- `Map::get` on an object's field list (serde maps have unique keys;
    we return the first binding). -/
def objGet (fields : List (String × Json)) (key : String) : Option Json :=
  (fields.find? (fun p => p.1 == key)).map (fun p => p.2)

/-- A successfully parsed IPC message: `{method, params}`. -/
structure IpcMessage where
  method : String
  params : Json

/-- Modelled from the spec: `trigger_from_serialized` (events.rs, not under
    src/) deserializes an interaction event description from the `params`
    value.  The event payload is opaque to this core, so the model carries
    the serialized description itself. -/
def trigger_from_serialized (params : Json) : Json :=
  params

/-- The state of `DesktopController` (controller.rs) as far as the bridge
    manipulates it, plus the liveness of the scheduler channel's receiver
    (the `futures_channel::mpsc::unbounded` receiver owned by the renderer
    thread), which decides whether `unbounded_send(..).unwrap()` panics. -/
structure Controller where
  webviews : List Nat
  pending_edits : List String
  is_ready : Bool
  quit_app_on_close : Bool
  schedulerReceiverAlive : Bool
deriving DecidableEq, Repr

/-- Effects produced by one run of the IPC handler closure:
    messages pushed onto the scheduler channel, `UserWindowEvent::Update`
    wake signals sent through the proxy, URLs handed to `webbrowser::open`,
    and `log::warn` diagnostics. -/
structure DispatchLog where
  schedulerMsgs : List Json
  updateSignals : Nat
  browserOpens : List String
  warnings : Nat

/-- The all-empty effect log. -/
def emptyLog : DispatchLog :=
  ⟨[], 0, [], 0⟩

/-- The IPC handler closure installed by `with_ipc_handler`
    (lib.rs 144-173; the copy at lib.rs 351-380 is identical for these
    branches).  Its input is the result of `parse_ipc_message` (events.rs,
    not under src/; per the spec it yields `{method, params}` on success
    and fails on malformed input), so a `none` argument is a payload that
    failed to parse.  A `none` result is a panic. -/
def with_ipc_handler (c : Controller) (parsed : Option IpcMessage) :
    Option (Controller × DispatchLog) :=
  match parsed with
  | some message =>
    if message.method = "user_event" then
      let event := trigger_from_serialized message.params
      if c.schedulerReceiverAlive then
        some (c, ⟨[event], 0, [], 0⟩)
      else
        none
    else if message.method = "initialize" then
      some ({ c with is_ready := true }, ⟨[], 1, [], 0⟩)
    else if message.method = "browser_open" then
      let data := message.params
      match data.as_object with
      | some temp =>
        if objContainsKey temp "href" then
          match objGet temp "href" with
          | none => none
          | some v =>
            match v.as_str with
            | none => none
            | some url => some (c, ⟨[], 0, [url], 0⟩)
        else
          some (c, emptyLog)
      | none => some (c, emptyLog)
    else
      some (c, emptyLog)
  | none => some (c, ⟨[], 0, [], 1⟩)

/-- `ControlFlow` of the host event loop (only the variants this code
    writes). -/
inductive ControlFlow where
  | Wait
  | Exit
deriving DecidableEq, Repr

/-- `DesktopController::close_window` (controller.rs 90-96).  Returns the
    new controller, the final value of `*control_flow`, and the list of
    writes performed on `*control_flow` (so "exactly one exit signal" is
    expressible). -/
def close_window (c : Controller) (window_id : Nat) (control_flow : ControlFlow) :
    Controller × ControlFlow × List ControlFlow :=
  let ws := c.webviews.erase window_id
  if ws.isEmpty && c.quit_app_on_close then
    ({ c with webviews := ws }, ControlFlow.Exit, [ControlFlow.Exit])
  else
    ({ c with webviews := ws }, control_flow, [])

/-- `Vec::pop`: removes and returns the LAST element. -/
def vecPop {α : Type} : List α → Option (α × List α)
  | [] => none
  | a :: rest =>
    match vecPop rest with
    | none => some (a, [])
    | some (x, r) => some (x, a :: r)

theorem vecPop_nil {α : Type} : vecPop ([] : List α) = none := rfl

theorem vecPop_concat {α : Type} (l : List α) (a : α) :
    vecPop (l ++ [a]) = some (a, l) := by
  induction l with
  | nil => rfl
  | cons b t ih => simp [vecPop, ih]

theorem vecPop_length {α : Type} :
    ∀ (q : List α) (x : α) (r : List α), vecPop q = some (x, r) → r.length < q.length := by
  intro q
  induction q with
  | nil => intro x r h; simp [vecPop] at h
  | cons a rest ih =>
    intro x r h
    simp only [vecPop] at h
    cases hrest : vecPop rest with
    | none =>
      rw [hrest] at h
      cases h
      simp
    | some pr =>
      rw [hrest] at h
      cases h
      have := ih pr.1 pr.2 (by rw [hrest])
      simp only [List.length_cons]
      omega

/-- The script text built by `format!("window.interpreter.handleEdits(\x7b\x7d)", edit)`. -/
def handleEditsScript (edit : String) : String :=
  "window.interpreter.handleEdits(" ++ edit ++ ")"

/-- The drain loop of `try_load_ready_webviews`:
    `while let Some(edit) = queue.pop() { view.evaluate_script(..) }`.
    Returns the scripts evaluated, in evaluation order; the queue is left
    empty. -/
def drainApply (q : List String) : List String :=
  match h : vecPop q with
  | none => []
  | some (edit, rest) => handleEditsScript edit :: drainApply rest
termination_by q.length
decreasing_by
  exact vecPop_length q edit rest h

theorem drainApply_concat (l : List String) (a : String) :
    drainApply (l ++ [a]) = handleEditsScript a :: drainApply l := by
  conv_lhs => unfold drainApply
  split
  · rename_i h
    rw [vecPop_concat] at h
    exact Option.noConfusion h
  · rename_i edit rest h
    rw [vecPop_concat] at h
    simp only [Option.some.injEq, Prod.mk.injEq] at h
    obtain ⟨h1, h2⟩ := h
    rw [h1, h2]

theorem drainApply_eq_reverse_map (q : List String) :
    drainApply q = q.reverse.map handleEditsScript := by
  induction q using List.reverseRecOn with
  | nil =>
    unfold drainApply
    rfl
  | append_singleton l a ih =>
    rw [drainApply_concat, ih]
    simp

/-- `DesktopController::try_load_ready_webviews` (controller.rs 98-108).
    If the gate reads `true`, it takes the first webview of the registry
    iterator — `unwrap()` panics when the registry is empty — and pops
    every queued edit, evaluating its script.  Returns the new controller
    and the scripts evaluated, in evaluation order; `none` is a panic. -/
def try_load_ready_webviews (c : Controller) :
    Option (Controller × List String) :=
  if c.is_ready then
    match c.webviews with
    | [] => none
    | _ :: _ =>
      some ({ c with pending_edits := [] }, drainApply c.pending_edits)
  else
    some (c, [])

/-- The `push` loop of the renderer driver's work cycle
    (controller.rs 69-74): `while let Some(edit) = muts.pop()` pushes each
    serialized batch, in pop order, onto the shared edit queue. -/
def pushEditsLoop (queue : List String) (muts : List String) : List String :=
  match h : vecPop muts with
  | none => queue
  | some (edit, rest) => pushEditsLoop (queue ++ [edit]) rest
termination_by muts.length
decreasing_by
  exact vecPop_length muts edit rest h

theorem pushEditsLoop_nil (queue : List String) :
    pushEditsLoop queue [] = queue := by
  unfold pushEditsLoop
  rfl

theorem pushEditsLoop_concat (queue l : List String) (a : String) :
    pushEditsLoop queue (l ++ [a]) = pushEditsLoop (queue ++ [a]) l := by
  conv_lhs => unfold pushEditsLoop
  split
  · rename_i h
    rw [vecPop_concat] at h
    exact Option.noConfusion h
  · rename_i edit rest h
    rw [vecPop_concat] at h
    simp only [Option.some.injEq, Prod.mk.injEq] at h
    obtain ⟨h1, h2⟩ := h
    rw [h1, h2]

theorem pushEditsLoop_eq (queue muts : List String) :
    pushEditsLoop queue muts = queue ++ muts.reverse := by
  induction muts using List.reverseRecOn generalizing queue with
  | nil => simp [pushEditsLoop_nil]
  | append_singleton l a ih =>
    rw [pushEditsLoop_concat, ih]
    simp

/-- One observable action of the renderer driver thread
    (controller.rs 49-77): pushing a serialized batch onto the edit queue,
    or sending `UserEvent::WindowEvent(UserWindowEvent::Update)` through
    the event-loop proxy. -/
inductive DriverAction where
  | enqueue (edit : String)
  | signalHost
deriving DecidableEq, Repr

/-- The actions of the `while let Some(edit) = muts.pop()` loop, in
    program order. -/
def enqueueLoopActions (muts : List String) : List DriverAction :=
  match h : vecPop muts with
  | none => []
  | some (edit, rest) => DriverAction.enqueue edit :: enqueueLoopActions rest
termination_by muts.length
decreasing_by
  exact vecPop_length muts edit rest h

theorem enqueueLoopActions_concat (l : List String) (a : String) :
    enqueueLoopActions (l ++ [a]) = DriverAction.enqueue a :: enqueueLoopActions l := by
  conv_lhs => unfold enqueueLoopActions
  split
  · rename_i h
    rw [vecPop_concat] at h
    exact Option.noConfusion h
  · rename_i edit rest h
    rw [vecPop_concat] at h
    simp only [Option.some.injEq, Prod.mk.injEq] at h
    obtain ⟨h1, h2⟩ := h
    rw [h1, h2]

theorem enqueueLoopActions_eq (muts : List String) :
    enqueueLoopActions muts = muts.reverse.map DriverAction.enqueue := by
  induction muts using List.reverseRecOn with
  | nil =>
    unfold enqueueLoopActions
    rfl
  | append_singleton l a ih =>
    rw [enqueueLoopActions_concat, ih]
    simp

/-- The initial render pass of `new_on_tokio` (controller.rs 55-63): the
    rebuild's serialized batch is pushed, then one `Update` signal is sent
    through the proxy. -/
def initial_render_actions (rebuildEdit : String) : List DriverAction :=
  [DriverAction.enqueue rebuildEdit, DriverAction.signalHost]

/-- One iteration of the renderer driver loop (controller.rs 65-77):
    `wait_for_work` yields the cycle's computed batches `muts`; the loop
    pushes each popped batch, then sends exactly one `Update` signal. -/
def renderer_work_cycle (muts : List String) : List DriverAction :=
  enqueueLoopActions muts ++ [DriverAction.signalHost]

/-- The controller state returned by `DesktopController::new_on_tokio`
    (controller.rs 81-87): empty registry, empty queue (the spawned
    renderer thread fills it asynchronously), gate down,
    `quit_app_on_close = true`; the scheduler receiver was just handed to
    the renderer thread, hence alive. -/
def new_on_tokio : Controller :=
  { webviews := []
    pending_edits := []
    is_ready := false
    quit_app_on_close := true
    schedulerReceiverAlive := true }

/-- `HashMap::insert` on the registry (lib.rs 210): window ids are unique,
    so inserting an existing id replaces its handle and leaves the key set
    unchanged. -/
def insertWebview (c : Controller) (window_id : Nat) : Controller :=
  if c.webviews.contains window_id then c
  else { c with webviews := c.webviews ++ [window_id] }

/-- The UI-to-scheduler channel (`futures_intrusive::channel::shared`,
    context.rs 11): a bounded buffer plus the liveness of the sole
    receiver. -/
structure CoreChannel (α : Type) where
  buffer : List α
  capacity : Nat
  receiverAlive : Bool

/-- Why `try_send` fails: receiver dropped, or buffer full. -/
inductive TrySendError where
  | closed
  | full
deriving DecidableEq, Repr

/-- `Sender::try_send` of the UI-to-scheduler channel. -/
def CoreChannel.try_send {α : Type} (ch : CoreChannel α) (cmd : α) :
    Except TrySendError (CoreChannel α) :=
  if ch.receiverAlive = false then Except.error TrySendError.closed
  else if ch.capacity ≤ ch.buffer.length then Except.error TrySendError.full
  else Except.ok { ch with buffer := ch.buffer ++ [cmd] }

/-- `DesktopContext::send` (context.rs 30-35):
    `try_send(cmd).expect("Failed to send CoreCommand")` — any send
    failure panics (`none`). -/
def DesktopContext.send {α : Type} (ch : CoreChannel α) (cmd : α) :
    Option (CoreChannel α) :=
  match ch.try_send cmd with
  | Except.ok ch2 => some ch2
  | Except.error _ => none

/-- The scheduler-to-UI broadcast channel (`tokio::sync::broadcast`,
    created with capacity 8 at lib.rs 302). -/
structure BroadcastChannel (α : Type) where
  capacity : Nat
  subscribers : Nat
  sent : List α

/-- `broadcast::Sender::send`: with zero receivers the value is dropped
    and an error is returned; otherwise the value is published to every
    subscriber. -/
def BroadcastChannel.send {α : Type} (bc : BroadcastChannel α) (v : α) :
    BroadcastChannel α × Except Unit Nat :=
  if bc.subscribers = 0 then (bc, Except.error ())
  else ({ bc with sent := bc.sent ++ [v] }, Except.ok bc.subscribers)

/-- `dispatch_ui_commands` (lib.rs 449-461): fetches the broadcast sender
    via `desktop.sender()` — whose `expect` panics (`none`) when the
    sender was never initialized — then for each drained UICommand does
    `let _ = tx.send(*e)`, ignoring the result. -/
def dispatch_ui_commands {α : Type} (senderOpt : Option (BroadcastChannel α))
    (events : List α) : Option (BroadcastChannel α) :=
  match senderOpt with
  | none => none
  | some tx => some (events.foldl (fun b e => (b.send e).1) tx)

/-- One event delivered to the host event loop, as far as it touches the
    controller (lib.rs 121-238):
    * `ipc p` — the webview's IPC channel delivers a payload whose parse
      result is `p`;
    * `update` — `UserWindowEvent::Update` wakes the loop; modelled from
      the spec: the user-event handler (desktop_context.rs, not under
      src/) reacts to the wake signal by calling
      `try_load_ready_webviews`;
    * `destroyed id` — `WindowEvent::Destroyed` calls `close_window`
      (control flow starts each iteration at `Wait`, lib.rs 122);
    * `windowBuilt id` — window construction finishes and the webview is
      inserted into the registry;
    * `driverCycle muts` — the renderer thread pushes one work cycle's
      batches onto the shared queue. -/
inductive SysOp where
  | ipc (parsed : Option IpcMessage)
  | update
  | destroyed (id : Nat)
  | windowBuilt (id : Nat)
  | driverCycle (muts : List String)

/-- The effect of one `SysOp` on the controller state; `none` is a panic. -/
def sysStep (c : Controller) (op : SysOp) : Option Controller :=
  match op with
  | SysOp.ipc parsed => (with_ipc_handler c parsed).map (fun r => r.1)
  | SysOp.update => (try_load_ready_webviews c).map (fun r => r.1)
  | SysOp.destroyed id => some (close_window c id ControlFlow.Wait).1
  | SysOp.windowBuilt id => some (insertWebview c id)
  | SysOp.driverCycle muts =>
    some { c with pending_edits := pushEditsLoop c.pending_edits muts }

/-- Running a sequence of events from a state; `none` as soon as one step
    panics. -/
def run (c : Controller) : List SysOp → Option Controller
  | [] => some c
  | op :: ops =>
    match sysStep c op with
    | none => none
    | some c2 => run c2 ops

/-! ## Helper lemmas -/

theorem tryLoad_not_ready (c : Controller) (h : c.is_ready = false) :
    try_load_ready_webviews c = some (c, []) := by
  simp [try_load_ready_webviews, h]

theorem tryLoad_ready (c : Controller) (h1 : c.is_ready = true)
    (h2 : c.webviews ≠ []) :
    try_load_ready_webviews c =
      some ({ c with pending_edits := [] },
        c.pending_edits.reverse.map handleEditsScript) := by
  cases hw : c.webviews with
  | nil => exact absurd hw h2
  | cons a t =>
    simp [try_load_ready_webviews, h1, hw, drainApply_eq_reverse_map]

theorem handler_none_eq (c : Controller) :
    with_ipc_handler c none = some (c, ⟨[], 0, [], 1⟩) := rfl

theorem handler_initialize_eq (c : Controller) (params : Json) :
    with_ipc_handler c (some ⟨"initialize", params⟩) =
      some ({ c with is_ready := true }, ⟨[], 1, [], 0⟩) := rfl

theorem handler_user_event_eq (c : Controller) (params : Json) :
    with_ipc_handler c (some ⟨"user_event", params⟩) =
      if c.schedulerReceiverAlive then
        some (c, ⟨[trigger_from_serialized params], 0, [], 0⟩)
      else none := rfl

theorem handler_unknown_eq (c : Controller) (m : IpcMessage)
    (h1 : m.method ≠ "user_event") (h2 : m.method ≠ "initialize")
    (h3 : m.method ≠ "browser_open") :
    with_ipc_handler c (some m) = some (c, emptyLog) := by
  cases m with
  | mk method params =>
    simp only [with_ipc_handler]
    rw [if_neg h1, if_neg h2, if_neg h3]

theorem handler_state (c : Controller) (parsed : Option IpcMessage)
    (r : Controller × DispatchLog) (h : with_ipc_handler c parsed = some r) :
    r.1 = c ∨ (r.1 = { c with is_ready := true } ∧
      ∃ params, parsed = some ⟨"initialize", params⟩) := by
  cases parsed with
  | none =>
    left
    rw [← Option.some.inj h]
  | some message =>
    simp only [with_ipc_handler] at h
    by_cases h1 : message.method = "user_event"
    · rw [if_pos h1] at h
      by_cases h2 : c.schedulerReceiverAlive = true
      · rw [if_pos h2] at h
        left
        rw [← Option.some.inj h]
      · rw [if_neg h2] at h
        exact Option.noConfusion h
    · rw [if_neg h1] at h
      by_cases h3 : message.method = "initialize"
      · rw [if_pos h3] at h
        right
        refine ⟨by rw [← Option.some.inj h], message.params, ?_⟩
        cases message with
        | mk method params =>
          simp only at h3
          rw [h3]
      · rw [if_neg h3] at h
        by_cases h4 : message.method = "browser_open"
        · rw [if_pos h4] at h
          left
          cases hobj : message.params.as_object with
          | none =>
            simp only [hobj] at h
            rw [← Option.some.inj h]
          | some temp =>
            simp only [hobj] at h
            by_cases h5 : objContainsKey temp "href" = true
            · rw [if_pos h5] at h
              cases hget : objGet temp "href" with
              | none =>
                simp only [hget] at h
                exact Option.noConfusion h
              | some v =>
                simp only [hget] at h
                cases hstr : v.as_str with
                | none =>
                  simp only [hstr] at h
                  exact Option.noConfusion h
                | some url =>
                  simp only [hstr] at h
                  rw [← Option.some.inj h]
            · rw [if_neg h5] at h
              rw [← Option.some.inj h]
        · rw [if_neg h4] at h
          left
          rw [← Option.some.inj h]

theorem tryLoad_state (c : Controller) (r : Controller × List String)
    (h : try_load_ready_webviews c = some r) :
    r.1 = c ∨ r.1 = { c with pending_edits := [] } := by
  by_cases hr : c.is_ready = true
  · cases hw : c.webviews with
    | nil =>
      exfalso
      simp [try_load_ready_webviews, hr, hw] at h
    | cons a t =>
      right
      simp [try_load_ready_webviews, hr, hw] at h
      rw [← h]
      simp [hw, hr]
  · left
    rw [Bool.not_eq_true] at hr
    rw [tryLoad_not_ready c hr] at h
    rw [← Option.some.inj h]

theorem close_window_fst (c : Controller) (id : Nat) (cf : ControlFlow) :
    (close_window c id cf).1 = { c with webviews := c.webviews.erase id } := by
  simp only [close_window]
  split <;> rfl

theorem insertWebview_isReady (c : Controller) (id : Nat) :
    (insertWebview c id).is_ready = c.is_ready := by
  unfold insertWebview
  split <;> rfl

theorem sysStep_isReady (c : Controller) (op : SysOp) (c' : Controller)
    (h : sysStep c op = some c') :
    c'.is_ready = c.is_ready ∨
      (c'.is_ready = true ∧ ∃ params, op = SysOp.ipc (some ⟨"initialize", params⟩)) := by
  cases op with
  | ipc parsed =>
    simp only [sysStep, Option.map_eq_some'] at h
    obtain ⟨r, hr, hr1⟩ := h
    rcases handler_state c parsed r hr with hcase | ⟨hcase, params, hparams⟩
    · left
      rw [← hr1, hcase]
    · right
      refine ⟨by rw [← hr1, hcase], params, by rw [hparams]⟩
  | update =>
    simp only [sysStep, Option.map_eq_some'] at h
    obtain ⟨r, hr, hr1⟩ := h
    rcases tryLoad_state c r hr with hcase | hcase
    · left; rw [← hr1, hcase]
    · left; rw [← hr1, hcase]
  | destroyed id =>
    left
    simp only [sysStep] at h
    rw [← Option.some.inj h, close_window_fst]
  | windowBuilt id =>
    left
    simp only [sysStep] at h
    rw [← Option.some.inj h, insertWebview_isReady]
  | driverCycle muts =>
    left
    simp only [sysStep] at h
    rw [← Option.some.inj h]

theorem sysStep_isReady_mono (c : Controller) (op : SysOp) (c' : Controller)
    (h : sysStep c op = some c') (htrue : c.is_ready = true) :
    c'.is_ready = true := by
  rcases sysStep_isReady c op c' h with hcase | ⟨hcase, _⟩
  · rw [hcase, htrue]
  · exact hcase

theorem run_isReady_mono :
    ∀ (ops : List SysOp) (c c' : Controller), run c ops = some c' →
      c.is_ready = true → c'.is_ready = true := by
  intro ops
  induction ops with
  | nil =>
    intro c c' h htrue
    simp only [run] at h
    rw [← Option.some.inj h]
    exact htrue
  | cons op rest ih =>
    intro c c' h htrue
    simp only [run] at h
    cases hs : sysStep c op with
    | none =>
      rw [hs] at h
      exact Option.noConfusion h
    | some c2 =>
      rw [hs] at h
      exact ih c2 c' h (sysStep_isReady_mono c op c2 hs htrue)

theorem broadcast_send_no_subscribers {α : Type} (bc : BroadcastChannel α)
    (v : α) (h : bc.subscribers = 0) : (bc.send v).1 = bc := by
  unfold BroadcastChannel.send
  rw [if_pos h]

/-! ## Claim theorems -/

/-- C1 counterexample: with batches "a" then "b" enqueued (in that order)
    on the queue, a ready drain applies the scripts in the order
    ["b", "a"] — the reverse of the enqueue order — so the drain performed
    by `try_load_ready_webviews` is not FIFO. -/
theorem c1_drain_not_fifo_counterexample :
    try_load_ready_webviews
        ⟨[0], ["a", "b"], true, true, true⟩ =
      some (⟨[0], [], true, true, true⟩,
        [handleEditsScript "b", handleEditsScript "a"]) ∧
    [handleEditsScript "b", handleEditsScript "a"] ≠
      [handleEditsScript "a", handleEditsScript "b"] := by
  constructor
  · have h1 : try_load_ready_webviews ⟨[0], ["a", "b"], true, true, true⟩ =
        some (⟨[0], [], true, true, true⟩, drainApply ["a", "b"]) := rfl
    rw [h1, drainApply_eq_reverse_map]
    rfl
  · decide

/-- C1 (amended): a drain performed by `try_load_ready_webviews` removes
    every currently queued batch exactly once, leaving the queue empty,
    but applies them in REVERSE enqueue order (the `Vec` is popped from
    the back), so enqueue/drain sequences follow LIFO, not FIFO, order. -/
theorem c1_drain_removes_all_lifo (c : Controller)
    (h1 : c.is_ready = true) (h2 : c.webviews ≠ []) :
    try_load_ready_webviews c =
      some ({ c with pending_edits := [] },
        c.pending_edits.reverse.map handleEditsScript) :=
  tryLoad_ready c h1 h2

/-- C1 witness: the amended drain behaviour at a concrete ready state with
    queue ["a", "b"]. -/
theorem c1_drain_removes_all_lifo_witness :
    try_load_ready_webviews ⟨[7], ["a", "b"], true, false, true⟩ =
      some (⟨[7], [], true, false, true⟩,
        [handleEditsScript "b", handleEditsScript "a"]) := by
  have h := c1_drain_removes_all_lifo ⟨[7], ["a", "b"], true, false, true⟩ rfl
    (by simp)
  simpa using h

/-- C2: while the gate is down, `try_load_ready_webviews` is a no-op (no
    batch removed, nothing applied); dispatching "initialize" flips the
    gate, leaves the queue intact and sends one wake signal; the following
    drain (given a live webview) applies every buffered batch exactly once
    and empties the queue, and a second drain applies nothing. -/
theorem c2_pre_readiness_buffering (c : Controller)
    (hnot : c.is_ready = false) :
    try_load_ready_webviews c = some (c, []) ∧
    ∀ params : Json,
      ∃ c' log, with_ipc_handler c (some ⟨"initialize", params⟩) = some (c', log) ∧
        c'.pending_edits = c.pending_edits ∧
        c'.is_ready = true ∧
        log.updateSignals = 1 ∧
        (c'.webviews ≠ [] →
          ∃ c2 applied, try_load_ready_webviews c' = some (c2, applied) ∧
            applied.Perm (c.pending_edits.map handleEditsScript) ∧
            c2.pending_edits = [] ∧
            try_load_ready_webviews c2 = some (c2, [])) := by
  refine ⟨tryLoad_not_ready c hnot, ?_⟩
  intro params
  refine ⟨{ c with is_ready := true }, ⟨[], 1, [], 0⟩,
    handler_initialize_eq c params, rfl, rfl, rfl, ?_⟩
  intro hws
  refine ⟨{ c with is_ready := true, pending_edits := [] },
    c.pending_edits.reverse.map handleEditsScript, ?_, ?_, rfl, ?_⟩
  · exact tryLoad_ready _ rfl hws
  · exact (List.reverse_perm c.pending_edits).map handleEditsScript
  · have h2 := tryLoad_ready { c with is_ready := true, pending_edits := [] }
      rfl hws
    simpa using h2

/-- C2 witness: the no-op drain at a concrete not-ready state with two
    buffered batches. -/
theorem c2_pre_readiness_buffering_witness :
    try_load_ready_webviews ⟨[0], ["a", "b"], false, true, true⟩ =
      some (⟨[0], ["a", "b"], false, true, true⟩, []) :=
  (c2_pre_readiness_buffering ⟨[0], ["a", "b"], false, true, true⟩ rfl).1

/-- C3: the "browser_open" branch does NOT silently ignore every malformed
    `params`: when the params are an object that contains "href" bound to
    a non-string value, `temp.get("href").unwrap().as_str().unwrap()`
    panics, crashing the host (the claim, and the spec's stated intent, is
    that malformed fields are ignored non-fatally). -/
theorem c3_browser_open_nonstring_href_panics :
    with_ipc_handler new_on_tokio
        (some ⟨"browser_open", Json.obj [("href", Json.num 1)]⟩) = none := rfl

/-- C4: the readiness gate latches: it starts false in the controller
    built by `new_on_tokio`; if any step of the system changes it, the
    new value is true and the step is the dispatch of an "initialize" IPC
    message; and along every panic-free run from the initial state, once
    a state reads true every later state reads true. -/
theorem c4_gate_latching :
    new_on_tokio.is_ready = false ∧
    (∀ (c : Controller) (op : SysOp) (c' : Controller),
      sysStep c op = some c' → c'.is_ready ≠ c.is_ready →
        c'.is_ready = true ∧
        ∃ params, op = SysOp.ipc (some ⟨"initialize", params⟩)) ∧
    (∀ (ops1 : List SysOp) (c1 : Controller) (ops2 : List SysOp)
        (c2 : Controller),
      run new_on_tokio ops1 = some c1 → run c1 ops2 = some c2 →
        c1.is_ready = true → c2.is_ready = true) := by
  refine ⟨rfl, ?_, ?_⟩
  · intro c op c' h hneq
    rcases sysStep_isReady c op c' h with hcase | ⟨htrue, params, hop⟩
    · exact absurd hcase hneq
    · exact ⟨htrue, params, hop⟩
  · intro ops1 c1 ops2 c2 _ hrun2 htrue
    exact run_isReady_mono ops2 c1 c2 hrun2 htrue

/-- C4 witness: the latching clause applied to a concrete run — dispatch
    "initialize" from the initial state, then build a window; the gate
    still reads true. -/
theorem c4_gate_latching_witness :
    (⟨[0], [], true, true, true⟩ : Controller).is_ready = true :=
  c4_gate_latching.2.2 [SysOp.ipc (some ⟨"initialize", Json.null⟩)]
    ⟨[], [], true, true, true⟩ [SysOp.windowBuilt 0]
    ⟨[0], [], true, true, true⟩ rfl rfl rfl

/-- C5: a payload that fails to parse is discarded with exactly one
    warning diagnostic and no other effect — the gate, the registry and
    the queue are untouched; a parsed payload with an unknown method tag
    returns normally with no state change, no diagnostic and no effect. -/
theorem c5_malformed_and_unknown_dispatch (c : Controller) (m : IpcMessage)
    (h1 : m.method ≠ "user_event") (h2 : m.method ≠ "initialize")
    (h3 : m.method ≠ "browser_open") :
    with_ipc_handler c none = some (c, ⟨[], 0, [], 1⟩) ∧
    with_ipc_handler c (some m) = some (c, emptyLog) :=
  ⟨handler_none_eq c, handler_unknown_eq c m h1 h2 h3⟩

/-- C5 witness: malformed payload and the unknown tag "unknown_tag" at a
    concrete state. -/
theorem c5_malformed_and_unknown_dispatch_witness :
    with_ipc_handler ⟨[0], ["a"], false, true, true⟩ none =
      some (⟨[0], ["a"], false, true, true⟩, ⟨[], 0, [], 1⟩) ∧
    with_ipc_handler ⟨[0], ["a"], false, true, true⟩
        (some ⟨"unknown_tag", Json.null⟩) =
      some (⟨[0], ["a"], false, true, true⟩, emptyLog) :=
  c5_malformed_and_unknown_dispatch ⟨[0], ["a"], false, true, true⟩
    ⟨"unknown_tag", Json.null⟩ (by decide) (by decide) (by decide)

/-- C6: `close_window` removes the entry for the given id; if the registry
    is then empty and `quit_app_on_close` holds, exactly one write of
    `ControlFlow::Exit` is performed; if the registry stays non-empty, no
    write is performed and the control flow is unchanged. -/
theorem c6_close_window_exit_policy (c : Controller) (id : Nat)
    (cf : ControlFlow) :
    (close_window c id cf).1 = { c with webviews := c.webviews.erase id } ∧
    (c.webviews.erase id = [] ∧ c.quit_app_on_close = true →
      (close_window c id cf).2.2 = [ControlFlow.Exit] ∧
      (close_window c id cf).2.1 = ControlFlow.Exit) ∧
    (c.webviews.erase id ≠ [] →
      (close_window c id cf).2.2 = [] ∧
      (close_window c id cf).2.1 = cf) := by
  refine ⟨close_window_fst c id cf, ?_, ?_⟩
  · intro ⟨hempty, hquit⟩
    have hcond : ((c.webviews.erase id).isEmpty && c.quit_app_on_close) = true := by
      rw [hempty, hquit]
      rfl
    simp only [close_window]
    rw [if_pos hcond]
    exact ⟨rfl, rfl⟩
  · intro hne
    cases he : c.webviews.erase id with
    | nil => exact absurd he hne
    | cons a t =>
      have hcond : ((c.webviews.erase id).isEmpty && c.quit_app_on_close) = false := by
        rw [he]
        rfl
      simp only [close_window]
      rw [if_neg (by rw [hcond]; exact Bool.false_ne_true)]
      exact ⟨rfl, rfl⟩

/-- C6 witness: destroying the last window with the exit policy active
    writes exactly one Exit signal. -/
theorem c6_close_window_exit_policy_witness :
    (close_window ⟨[1], [], false, true, true⟩ 1 ControlFlow.Wait).2.2 =
      [ControlFlow.Exit] ∧
    (close_window ⟨[1], [], false, true, true⟩ 1 ControlFlow.Wait).2.1 =
      ControlFlow.Exit :=
  (c6_close_window_exit_policy ⟨[1], [], false, true, true⟩ 1
    ControlFlow.Wait).2.1 ⟨rfl, rfl⟩

/-- C7: the command bridge failure policy is asymmetric — any `try_send`
    failure on the UI-to-scheduler channel (receiver gone, or buffer full)
    makes `DesktopContext::send` panic, while `dispatch_ui_commands`
    publishes on the broadcast channel with zero subscribers without error
    and returns normally. -/
theorem c7_command_bridge_asymmetry (α : Type) :
    (∀ (ch : CoreChannel α) (cmd : α) (e : TrySendError),
      ch.try_send cmd = Except.error e → DesktopContext.send ch cmd = none) ∧
    (∀ (bc : BroadcastChannel α) (events : List α),
      bc.subscribers = 0 → dispatch_ui_commands (some bc) events = some bc) := by
  constructor
  · intro ch cmd e h
    unfold DesktopContext.send
    rw [h]
  · intro bc events h
    unfold dispatch_ui_commands
    show some _ = some bc
    congr 1
    induction events with
    | nil => rfl
    | cons e rest ih =>
      simp only [List.foldl_cons]
      rw [broadcast_send_no_subscribers bc e h]
      exact ih

/-- C7 witness: a closed UI-to-scheduler channel makes `send` panic, while
    broadcasting two commands to zero subscribers returns normally. -/
theorem c7_command_bridge_asymmetry_witness :
    DesktopContext.send (⟨[], 8, false⟩ : CoreChannel Nat) 5 = none ∧
    dispatch_ui_commands (some (⟨8, 0, []⟩ : BroadcastChannel Nat)) [1, 2] =
      some ⟨8, 0, []⟩ :=
  ⟨(c7_command_bridge_asymmetry Nat).1 ⟨[], 8, false⟩ 5 TrySendError.closed rfl,
   (c7_command_bridge_asymmetry Nat).2 ⟨8, 0, []⟩ [1, 2] rfl⟩

/-- C8: a "user_event" payload pushes exactly the deserialized event onto
    the scheduler channel; the pushed messages do not depend on the webview
    registry (in particular a state with no window behaves identically);
    and with the channel's receiver gone the dispatch panics instead of
    dropping the event. -/
theorem c8_user_event_injection (c : Controller) (params : Json) :
    (c.schedulerReceiverAlive = true →
      with_ipc_handler c (some ⟨"user_event", params⟩) =
        some (c, ⟨[trigger_from_serialized params], 0, [], 0⟩)) ∧
    (∀ ws : List Nat,
      (with_ipc_handler { c with webviews := ws }
          (some ⟨"user_event", params⟩)).map (fun r => r.2) =
        (with_ipc_handler c (some ⟨"user_event", params⟩)).map (fun r => r.2)) ∧
    (c.schedulerReceiverAlive = false →
      with_ipc_handler c (some ⟨"user_event", params⟩) = none) := by
  refine ⟨?_, ?_, ?_⟩
  · intro halive
    rw [handler_user_event_eq, if_pos halive]
  · intro ws
    cases halive : c.schedulerReceiverAlive <;>
      simp [handler_user_event_eq, halive]
  · intro hdead
    rw [handler_user_event_eq, if_neg (by rw [hdead]; exact Bool.false_ne_true)]

/-- C8 witness: dispatching a user event with no window registered still
    pushes it onto the scheduler channel. -/
theorem c8_user_event_injection_witness :
    with_ipc_handler ⟨[], [], false, true, true⟩
        (some ⟨"user_event", Json.str "click"⟩) =
      some (⟨[], [], false, true, true⟩,
        ⟨[trigger_from_serialized (Json.str "click")], 0, [], 0⟩) :=
  (c8_user_event_injection ⟨[], [], false, true, true⟩ (Json.str "click")).1 rfl

/-- C9: the renderer driver signals the host exactly once per work cycle:
    the initial render pass enqueues its batch and then signals once, and
    each loop iteration performs all of its enqueues (zero or more, in pop
    order) strictly before its single wake signal. -/
theorem c9_one_signal_per_cycle :
    (∀ rebuildEdit : String,
      initial_render_actions rebuildEdit =
        [DriverAction.enqueue rebuildEdit, DriverAction.signalHost]) ∧
    (∀ muts : List String,
      renderer_work_cycle muts =
        muts.reverse.map DriverAction.enqueue ++ [DriverAction.signalHost] ∧
      (renderer_work_cycle muts).count DriverAction.signalHost = 1) := by
  constructor
  · intro rebuildEdit
    rfl
  · intro muts
    constructor
    · unfold renderer_work_cycle
      rw [enqueueLoopActions_eq]
    · unfold renderer_work_cycle
      rw [enqueueLoopActions_eq, List.count_append]
      have hzero : (muts.reverse.map DriverAction.enqueue).count
          DriverAction.signalHost = 0 := by
        rw [List.count_eq_zero]
        intro hmem
        obtain ⟨b, _, hb⟩ := List.mem_map.mp hmem
        exact DriverAction.noConfusion hb
      rw [hzero]
      rfl

/-- C10: whenever the gate reads true and the registry is empty,
    `try_load_ready_webviews` panics on `iter_mut().next().unwrap()`
    instead of being a no-op — even with an empty queue. -/
theorem c10_drain_panics_without_webview (c : Controller)
    (h1 : c.is_ready = true) (h2 : c.webviews = []) :
    try_load_ready_webviews c = none := by
  simp [try_load_ready_webviews, h1, h2]

/-- C10 witness: a wake after the last window is gone but with the gate up
    panics. -/
theorem c10_drain_panics_without_webview_witness :
    try_load_ready_webviews ⟨[], ["x"], true, true, true⟩ = none :=
  c10_drain_panics_without_webview ⟨[], ["x"], true, true, true⟩ rfl rfl

end DioxusDesktop
